import Mathlib

/-!
Shallow embedding of the finding-normalization pipeline of the
securops-config repository, covering the two call sites:

* scripts/generate-report.py — the dashboard flow: builds the merged
  findings list from the Semgrep, Trivy, Nuclei and Checkov reports and
  sorts it by severity rank, and update_enrollment, which appends a run
  snapshot to the enrollment store and recomputes aggregate stats.
* scripts/ai-auto-fix.py — the AI-fix flow: collect_findings merges the
  per-tool findings into one list and caps it at MAX_FIXES_PER_RUN.

Raw scanner records are modelled as structures whose fields are Option
values: none stands for an absent JSON key, so that the Python
dict.get(key, default) calls translate to Option.getD.  The embedded
input space is records whose present fields hold well-typed, non-null
values, with two deliberate extensions beyond it: the Description field
of a Trivy vulnerability also represents JSON null (type
Option (Option String), some none for null), because the AI-fix flow
slices it and raises TypeError on null; and file_line_range of a
Checkov check can be a present empty list, on which both flows raise
IndexError while indexing position 0.  JSON null in the other string
fields, and null nested objects, are NOT representable: on several of
those the dashboard flow would also raise (a null check_id under
split, a null message, description or guideline under slicing, a null
info severity under upper-casing, a null extra, start, info, check or
metadata object under a further get) — all these shapes lie outside
the embedded input space, and every theorem below quantifies over the
embedded records only.  Expressions that can raise inside the embedded
space are modelled in an Except monad over PyErr.
-/

/-- Python runtime errors that the modelled extraction code can raise. -/
inductive PyErr : Type
  | indexError
  | typeError
deriving DecidableEq, Repr

/-- Rendering of an optional string inside a Python f-string:
an absent value prints as the string None. -/
def fmtOpt : Option String → String
  | none => "None"
  | some s => s

/-- Python list indexing with [0]: raises IndexError on an empty list. -/
def pyHead : List Int → Except PyErr Int
  | [] => .error .indexError
  | x :: _ => .ok x

/-- Python str.split on a dot followed by [-1]: last dot-separated
component (split of the empty string yields one empty component). -/
def lastDotComponent (s : String) : String :=
  (s.splitOn ".").getLastD ""

/-- Python str.upper on the ASCII severity vocabulary, as a structural
map over the character list. -/
def pyUpper (s : String) : String :=
  String.mk (s.data.map Char.toUpper)

/- ────────────────────────────────────────────────────────────
Raw scanner records (the shapes read from the report files)
──────────────────────────────────────────────────────────── -/

/-- One entry of the results array of a Semgrep report.  Nested paths
are flattened: extra_severity stands for r.get with extra then severity,
start_line for start then line, extra_metadata_fix for extra, metadata,
fix.  Absence at any level of the path is none.  A JSON null in
check_id or extra_message is not representable: the dashboard flow
raises on those (None under split at generate-report.py line 84, None
under slicing at line 86), so such records lie outside the embedded
input space. -/
structure SemgrepResult where
  check_id : Option String
  path : Option String
  start_line : Option Int
  extra_severity : Option String
  extra_message : Option String
  extra_metadata_fix : Option String
deriving DecidableEq, Repr

/-- One entry of a Vulnerabilities array of a Trivy report.
Description is Option (Option String): none = key absent,
some none = JSON null, some (some s) = string s. -/
structure TrivyVuln where
  Severity : Option String
  VulnerabilityID : Option String
  Title : Option String
  Description : Option (Option String)
  PkgName : Option String
  InstalledVersion : Option String
  FixedVersion : Option String
deriving DecidableEq, Repr

/-- One entry of the Results array of a Trivy report.  An absent
Vulnerabilities key defaults to the empty list in both call sites, so it
is modelled as a plain list. -/
structure TrivyResult where
  Target : Option String
  Vulnerabilities : List TrivyVuln
deriving DecidableEq, Repr

/-- One JSONL row of a Nuclei report, with the nested info object
flattened (info_severity stands for info then severity, and so on).
A JSON null in info_severity or info_description is not representable:
the dashboard flow raises on those (None under upper-casing at
generate-report.py line 104, None under slicing at line 110), so such
rows lie outside the embedded input space. -/
structure NucleiRow where
  info_severity : Option String
  info_name : Option String
  info_description : Option String
  info_remediation : Option String
  matched_at : Option String
  host : Option String
  template_id : Option String
  extracted_results : Option (List String)
deriving DecidableEq, Repr

/-- One entry of results.failed_checks of a Checkov report, with the
nested check object flattened (check_name stands for check then name).
file_line_range can be a present empty list (some of the empty list),
the shape on which both flows raise IndexError.  A JSON null in
check_guideline is not representable: the dashboard flow raises on it
(None under slicing at generate-report.py line 122), so such checks
lie outside the embedded input space. -/
structure CheckovCheck where
  severity : Option String
  check_id : Option String
  check_name : Option String
  check_guideline : Option String
  repo_file_path : Option String
  file_line_range : Option (List Int)
deriving DecidableEq, Repr

/- ────────────────────────────────────────────────────────────
Dashboard flow: the findings list of scripts/generate-report.py
──────────────────────────────────────────────────────────── -/

/-- A finding dict appended to the findings list of generate-report.py
(keys tool, severity, title, file, detail). -/
structure DashFinding where
  tool : String
  severity : String
  title : String
  file : String
  detail : String
deriving DecidableEq, Repr

/-- SEV_ORDER.get of generate-report.py: the fixed severity rank, with
default 99 for an unrecognized severity string. -/
def sevRank (s : String) : Nat :=
  if s = "CRITICAL" then 0
  else if s = "HIGH" then 1
  else if s = "MEDIUM" then 2
  else if s = "LOW" then 3
  else 99

/-- Rendering of the optional Semgrep line number in the dashboard file
field: absent renders as the empty string (the source uses default ''). -/
def fmtLineDash : Option Int → String
  | none => ""
  | some n => toString n

/-- The finding built from one Semgrep result in the dashboard flow. -/
def mkSemgrepDash (r : SemgrepResult) : DashFinding :=
  { tool := "Semgrep"
    severity := if r.extra_severity.getD "WARNING" = "ERROR" then "HIGH" else "MEDIUM"
    title := lastDotComponent (r.check_id.getD "")
    file := r.path.getD "" ++ ":" ++ fmtLineDash r.start_line
    detail := (r.extra_message.getD "").take 120 }

/-- Dashboard Semgrep section: the first 20 results, each mapped. -/
def semgrepFindingsDash (rs : List SemgrepResult) : List DashFinding :=
  (rs.take 20).map mkSemgrepDash

/-- The kept-row test of the dashboard Trivy section. -/
def trivyKeptDash (v : TrivyVuln) : Bool :=
  v.Severity == some "CRITICAL" || v.Severity == some "HIGH"

/-- The finding built from one kept Trivy vulnerability in the dashboard
flow.  The severity field is v.get of Severity with no default — it is
only evaluated on kept rows, where the key is present and the stored
value is the severity string, so the fmtOpt fallback is unreachable. -/
def mkTrivyDash (target : Option String) (v : TrivyVuln) : DashFinding :=
  { tool := "Trivy"
    severity := fmtOpt v.Severity
    title := v.VulnerabilityID.getD ""
    file := target.getD ""
    detail := fmtOpt v.PkgName ++ " " ++ fmtOpt v.InstalledVersion ++
              " → fix: " ++ v.FixedVersion.getD "none" }

/-- Dashboard Trivy section: every Results entry (uncapped), within each
at most the first 10 vulnerabilities, kept only when severity is
CRITICAL or HIGH. -/
def trivyFindingsDash (results : List TrivyResult) : List DashFinding :=
  results.flatMap fun res =>
    ((res.Vulnerabilities.take 10).filter trivyKeptDash).map
      (mkTrivyDash res.Target)

/-- The kept-row test of the dashboard Nuclei section: the upper-cased
severity (default info) must be CRITICAL, HIGH or MEDIUM. -/
def nucleiKeptDash (r : NucleiRow) : Bool :=
  let sev := pyUpper (r.info_severity.getD "info")
  sev == "CRITICAL" || sev == "HIGH" || sev == "MEDIUM"

/-- The finding built from one kept Nuclei row in the dashboard flow. -/
def mkNucleiDash (r : NucleiRow) : DashFinding :=
  { tool := "Nuclei"
    severity := pyUpper (r.info_severity.getD "info")
    title := r.info_name.getD ""
    file := r.matched_at.getD (r.host.getD "")
    detail := (r.info_description.getD "").take 120 }

/-- Dashboard Nuclei section: the first 10 rows, filtered and mapped. -/
def nucleiFindingsDash (rows : List NucleiRow) : List DashFinding :=
  ((rows.take 10).filter nucleiKeptDash).map mkNucleiDash

/-- The kept-row test of the dashboard Checkov section: the severity
(default MEDIUM) must be CRITICAL or HIGH. -/
def checkovKeptDash (c : CheckovCheck) : Bool :=
  c.severity.getD "MEDIUM" == "CRITICAL" || c.severity.getD "MEDIUM" == "HIGH"

/-- The finding built from one kept Checkov check in the dashboard flow,
given the already extracted first element of file_line_range. -/
def mkCheckovDash (c : CheckovCheck) (ln : Int) : DashFinding :=
  { tool := "Checkov"
    severity := c.severity.getD "MEDIUM"
    title := c.check_id.getD "" ++ " — " ++ c.check_name.getD ""
    file := c.repo_file_path.getD "" ++ ":" ++ toString ln
    detail := (c.check_guideline.getD "").take 120 }

/-- Processing of one list of Checkov checks in the dashboard flow.  For
a kept check, the file field indexes c.get of file_line_range with
default the one-element list 0 at position 0, which raises IndexError
when the stored value is a present empty list. -/
def checkovDashList : List CheckovCheck → Except PyErr (List DashFinding)
  | [] => .ok []
  | c :: cs =>
    if checkovKeptDash c then
      match pyHead (c.file_line_range.getD [0]) with
      | .error e => .error e
      | .ok ln =>
        match checkovDashList cs with
        | .error e => .error e
        | .ok rest => .ok (mkCheckovDash c ln :: rest)
    else checkovDashList cs

/-- Dashboard Checkov section: the first 10 failed checks. -/
def checkovFindingsDash (cs : List CheckovCheck) : Except PyErr (List DashFinding) :=
  checkovDashList (cs.take 10)

/-- The merged findings list of generate-report.py in append order
(Semgrep, then Trivy, then Nuclei, then Checkov), before sorting. -/
def dashboardRaw (sast : List SemgrepResult) (sca : List TrivyResult)
    (dast : List NucleiRow) (iac : List CheckovCheck) :
    Except PyErr (List DashFinding) :=
  match checkovFindingsDash iac with
  | .error e => .error e
  | .ok kf => .ok (semgrepFindingsDash sast ++ trivyFindingsDash sca ++
                   nucleiFindingsDash dast ++ kf)

/-- The in-place findings.sort with key SEV_ORDER.get: a stable sort by
severity rank, modelled by the stable List.mergeSort. -/
def pySortBySev (fs : List DashFinding) : List DashFinding :=
  fs.mergeSort fun a b => decide (sevRank a.severity ≤ sevRank b.severity)

/-- The final dashboard findings list: the merged list sorted by
severity rank. -/
def dashboardFindings (sast : List SemgrepResult) (sca : List TrivyResult)
    (dast : List NucleiRow) (iac : List CheckovCheck) :
    Except PyErr (List DashFinding) :=
  (dashboardRaw sast sca dast iac).map pySortBySev

/- ────────────────────────────────────────────────────────────
AI-fix flow: collect_findings of scripts/ai-auto-fix.py
──────────────────────────────────────────────────────────── -/

/-- MAX_FIXES_PER_RUN of ai-auto-fix.py. -/
def MAX_FIXES_PER_RUN : Nat := 10

/-- A finding dict built by collect_findings of ai-auto-fix.py
(keys tool, severity, type, message, file, line, snippet, fix_hint). -/
structure FixFinding where
  tool : String
  severity : String
  type : String
  message : String
  file : String
  line : Int
  snippet : String
  fix_hint : String
deriving DecidableEq, Repr

/-- The kept-record test of the AI-fix Semgrep section: the severity
under extra must equal ERROR exactly (no default: an absent key
compares unequal). -/
def semgrepKeptFix (r : SemgrepResult) : Bool :=
  r.extra_severity == some "ERROR"

/-- The finding built from one kept Semgrep result in the AI-fix flow.
The snippet field calls read_file_snippet, which reads the working tree;
it is abstracted as the function argument snip. -/
def mkSemgrepFix (snip : String → Int → String) (r : SemgrepResult) : FixFinding :=
  { tool := "Semgrep SAST"
    severity := "HIGH"
    type := r.check_id.getD "unknown"
    message := r.extra_message.getD ""
    file := r.path.getD ""
    line := r.start_line.getD 0
    snippet := snip (r.path.getD "") (r.start_line.getD 0)
    fix_hint := r.extra_metadata_fix.getD "" }

/-- AI-fix Semgrep section: the first 5 results, filtered and mapped. -/
def semgrepFindingsFix (snip : String → Int → String) (rs : List SemgrepResult) :
    List FixFinding :=
  ((rs.take 5).filter semgrepKeptFix).map (mkSemgrepFix snip)

/-- The kept-row test of the AI-fix Trivy section. -/
def trivyKeptFix (v : TrivyVuln) : Bool :=
  v.Severity == some "CRITICAL" || v.Severity == some "HIGH"

/-- The message expression of the AI-fix Trivy section: Title (default
empty) if truthy, otherwise Description sliced to 200 characters — the
slice raises TypeError when Description is JSON null. -/
def trivyFixMsg (v : TrivyVuln) : Except PyErr String :=
  if v.Title.getD "" ≠ "" then .ok (v.Title.getD "")
  else
    match v.Description with
    | none => .ok ""
    | some none => .error .typeError
    | some (some d) => .ok (d.take 200)

/-- The finding built from one kept Trivy vulnerability in the AI-fix
flow, given its already computed message. -/
def mkTrivyFix (target : Option String) (v : TrivyVuln) (msg : String) : FixFinding :=
  { tool := "Trivy SCA"
    severity := v.Severity.getD "HIGH"
    type := v.VulnerabilityID.getD ""
    message := msg
    file := target.getD ""
    line := 0
    snippet := "Package: " ++ fmtOpt v.PkgName ++ " " ++ fmtOpt v.InstalledVersion ++
               " → Fix: " ++ v.FixedVersion.getD "no fix yet"
    fix_hint := "Upgrade " ++ fmtOpt v.PkgName ++ " to " ++ v.FixedVersion.getD "latest" }

/-- Processing of one list of Trivy vulnerabilities in the AI-fix flow. -/
def trivyFixVulns (target : Option String) : List TrivyVuln → Except PyErr (List FixFinding)
  | [] => .ok []
  | v :: vs =>
    if trivyKeptFix v then
      match trivyFixMsg v with
      | .error e => .error e
      | .ok msg =>
        match trivyFixVulns target vs with
        | .error e => .error e
        | .ok rest => .ok (mkTrivyFix target v msg :: rest)
    else trivyFixVulns target vs

/-- Processing of a list of Trivy Results entries in the AI-fix flow:
within each entry at most the first 3 vulnerabilities. -/
def trivyFixResults : List TrivyResult → Except PyErr (List FixFinding)
  | [] => .ok []
  | r :: rs =>
    match trivyFixVulns r.Target (r.Vulnerabilities.take 3) with
    | .error e => .error e
    | .ok a =>
      match trivyFixResults rs with
      | .error e => .error e
      | .ok b => .ok (a ++ b)

/-- AI-fix Trivy section: the first 3 Results entries. -/
def trivyFindingsFix (results : List TrivyResult) : Except PyErr (List FixFinding) :=
  trivyFixResults (results.take 3)

/-- The kept-check test of the AI-fix Checkov section: the severity must
equal CRITICAL exactly (no default). -/
def checkovKeptFix (c : CheckovCheck) : Bool :=
  c.severity == some "CRITICAL"

/-- The finding built from one kept Checkov check in the AI-fix flow,
given the two already extracted first elements of file_line_range (the
line field uses default list [0], the snippet call default [0, 0]). -/
def mkCheckovFix (snip : String → Int → String) (c : CheckovCheck)
    (ln ln2 : Int) : FixFinding :=
  { tool := "Checkov IaC"
    severity := "CRITICAL"
    type := c.check_id.getD ""
    message := c.check_name.getD ""
    file := c.repo_file_path.getD ""
    line := ln
    snippet := snip (c.repo_file_path.getD "") ln2
    fix_hint := c.check_guideline.getD "" }

/-- Processing of one list of Checkov checks in the AI-fix flow.  Both
the line field and the snippet argument index file_line_range at
position 0, raising IndexError on a present empty list. -/
def checkovFixList (snip : String → Int → String) :
    List CheckovCheck → Except PyErr (List FixFinding)
  | [] => .ok []
  | c :: cs =>
    if checkovKeptFix c then
      match pyHead (c.file_line_range.getD [0]) with
      | .error e => .error e
      | .ok ln =>
        match pyHead (c.file_line_range.getD [0, 0]) with
        | .error e => .error e
        | .ok ln2 =>
          match checkovFixList snip cs with
          | .error e => .error e
          | .ok rest => .ok (mkCheckovFix snip c ln ln2 :: rest)
    else checkovFixList snip cs

/-- AI-fix Checkov section: the first 3 failed checks. -/
def checkovFindingsFix (snip : String → Int → String) (cs : List CheckovCheck) :
    Except PyErr (List FixFinding) :=
  checkovFixList snip (cs.take 3)

/-- The kept-row test of the AI-fix Nuclei section: the severity under
info must equal the lower-case string critical or high exactly (a
case-sensitive comparison, no default). -/
def nucleiKeptFix (r : NucleiRow) : Bool :=
  r.info_severity == some "critical" || r.info_severity == some "high"

/-- The finding built from one kept Nuclei row in the AI-fix flow.  The
snippet is the first extracted result when the list is present and
non-empty, otherwise the empty string. -/
def mkNucleiFix (r : NucleiRow) : FixFinding :=
  { tool := "Nuclei DAST"
    severity := pyUpper (r.info_severity.getD "high")
    type := r.template_id.getD ""
    message := r.info_name.getD ""
    file := r.matched_at.getD (r.host.getD "")
    line := 0
    snippet := match r.extracted_results with
               | some (x :: _) => x
               | _ => ""
    fix_hint := r.info_remediation.getD "" }

/-- AI-fix Nuclei section: the first 3 rows, filtered and mapped. -/
def nucleiFindingsFix (rows : List NucleiRow) : List FixFinding :=
  ((rows.take 3).filter nucleiKeptFix).map mkNucleiFix

/-- collect_findings of ai-auto-fix.py: merge the Semgrep, Trivy,
Checkov and Nuclei findings in that order and return the first
MAX_FIXES_PER_RUN of the merged list. -/
def collect_findings (snip : String → Int → String)
    (sast : List SemgrepResult) (sca : List TrivyResult)
    (iac : List CheckovCheck) (dast : List NucleiRow) :
    Except PyErr (List FixFinding) :=
  match trivyFindingsFix sca with
  | .error e => .error e
  | .ok t =>
    match checkovFindingsFix snip iac with
    | .error e => .error e
    | .ok k =>
      .ok ((semgrepFindingsFix snip sast ++ t ++ k ++ nucleiFindingsFix dast).take
            MAX_FIXES_PER_RUN)

/- ────────────────────────────────────────────────────────────
Enrollment tracking: update_enrollment of scripts/generate-report.py
──────────────────────────────────────────────────────────── -/

/-- One per-tool entry of the RESULTS table of generate-report.py:
the pass/fail result string and the finding count from the
environment. -/
structure ToolStatus where
  result : String
  count : Int
deriving DecidableEq, Repr

/-- The RESULTS table: the five tools in source order. -/
structure Results5 where
  secrets : ToolStatus
  sast : ToolStatus
  sca : ToolStatus
  dast : ToolStatus
  iac : ToolStatus
deriving DecidableEq, Repr

/-- total_issues of generate-report.py: the sum of the five counts. -/
def total_issues (r : Results5) : Int :=
  r.secrets.count + r.sast.count + r.sca.count + r.dast.count + r.iac.count

/-- all_passed of generate-report.py. -/
def all_passed (r : Results5) : Bool :=
  r.secrets.result == "success" && r.sast.result == "success" &&
  r.sca.result == "success" && r.dast.result == "success" &&
  r.iac.result == "success"

/-- gate_status of generate-report.py. -/
def gate_status (r : Results5) : String :=
  if all_passed r then "PASSED" else "FAILED"

/-- The process-wide environment values update_enrollment closes over,
including the timestamp taken at the start of the call. -/
structure EnvCtx where
  actor : String
  repo : String
  run_id : String
  run_url : String
  event : String
  ref : String
  results : Results5
  now : String
deriving DecidableEq, Repr

/-- One per-developer entry of the enrolled mapping. -/
structure DevEntry where
  first_seen : String
  scan_count : Int
  issues_found : Int
  last_scan : String
  status : String
deriving DecidableEq, Repr

/-- One per-run snapshot appended to the scans list.  The per-tool
results mapping is stored as (key, result, count) triples in the fixed
source order. -/
structure ScanEntry where
  run_id : String
  run_url : String
  actor : String
  repo : String
  ref : String
  event : String
  timestamp : String
  gate : String
  total_issues : Int
  results : List (String × String × Int)
deriving DecidableEq, Repr

/-- The aggregate stats object recomputed on every update.  pass_rate is
modelled with exact rational arithmetic; the Python source computes it
on binary floats, which approximate the same value. -/
structure StatsObj where
  total_scans : Nat
  passed_scans : Nat
  failed_scans : Nat
  pass_rate : Rat
  total_enrolled : Nat
  total_issues_found : Int
  last_updated : String
deriving DecidableEq, Repr

/-- The enrollment store.  The enrolled mapping is a Python dict keyed
by actor, modelled as an insertion-ordered association list with unique
keys; stats is none when the loaded file had an empty stats object. -/
structure EnrollData where
  enrolled : List (String × DevEntry)
  scans : List ScanEntry
  stats : Option StatsObj
deriving DecidableEq, Repr

/-- Dict lookup in the enrolled mapping. -/
def lookupDev (k : String) : List (String × DevEntry) → Option DevEntry
  | [] => none
  | (k2, v) :: rest => if k2 == k then some v else lookupDev k rest

/-- Dict assignment in the enrolled mapping: replace the value at an
existing key in place, or append a new key at the end (Python dicts
preserve insertion order). -/
def setDev (k : String) (v : DevEntry) : List (String × DevEntry) → List (String × DevEntry)
  | [] => [(k, v)]
  | (k2, v2) :: rest =>
    if k2 == k then (k, v) :: rest else (k2, v2) :: setDev k v rest

/-- The fresh entry registered for a newly enrolled developer. -/
def freshDev (now : String) : DevEntry :=
  { first_seen := now, scan_count := 0, issues_found := 0,
    last_scan := now, status := "enrolled" }

/-- The in-place mutation of the developer entry of the current actor:
scan_count goes up by 1, issues_found by the total issue count of the
run, last_scan becomes the current timestamp. -/
def bumpDev (r : Results5) (now : String) (d : DevEntry) : DevEntry :=
  { d with scan_count := d.scan_count + 1,
           issues_found := d.issues_found + total_issues r,
           last_scan := now }

/-- The scan snapshot appended by update_enrollment. -/
def mkScanEntry (ctx : EnvCtx) : ScanEntry :=
  { run_id := ctx.run_id
    run_url := ctx.run_url
    actor := ctx.actor
    repo := ctx.repo
    ref := ctx.ref
    event := ctx.event
    timestamp := ctx.now
    gate := gate_status ctx.results
    total_issues := total_issues ctx.results
    results := [("secrets", ctx.results.secrets.result, ctx.results.secrets.count),
                ("sast", ctx.results.sast.result, ctx.results.sast.count),
                ("sca", ctx.results.sca.result, ctx.results.sca.count),
                ("dast", ctx.results.dast.result, ctx.results.dast.count),
                ("iac", ctx.results.iac.result, ctx.results.iac.count)] }

/-- Floor of a rational as an integer, via floor division of numerator
by denominator. -/
def ratFloor (q : Rat) : Int :=
  Int.fdiv q.num q.den

/-- Round a rational to the nearest integer, ties to even — the
behaviour of the Python built-in round. -/
def roundHalfEven (q : Rat) : Int :=
  let f := ratFloor q
  let frac := q - (f : Rat)
  if frac < 1/2 then f
  else if 1/2 < frac then f + 1
  else if f % 2 = 0 then f else f + 1

/-- Python round with one decimal digit, on exact rationals. -/
def round1 (q : Rat) : Rat :=
  (roundHalfEven (q * 10) : Rat) / 10

/-- Keep last 500 scans: Python list slicing with [-500:], keeping the
final 500 elements (or the whole list when shorter). -/
def keepLast500 (l : List ScanEntry) : List ScanEntry :=
  l.drop (l.length - 500)

/-- The developer-registration block of update_enrollment: when the
actor string is truthy and not the unknown sentinel, a fresh entry is
inserted if the actor is not yet enrolled, and the actor entry is then
bumped in place; otherwise the mapping is left untouched. -/
def updateEnrolled (ctx : EnvCtx) (enrolled : List (String × DevEntry)) :
    List (String × DevEntry) :=
  if ctx.actor ≠ "" ∧ ctx.actor ≠ "unknown" then
    let e0 :=
      match lookupDev ctx.actor enrolled with
      | some _ => enrolled
      | none => setDev ctx.actor (freshDev ctx.now) enrolled
    let d0 := (lookupDev ctx.actor e0).getD (freshDev ctx.now)
    setDev ctx.actor (bumpDev ctx.results ctx.now d0) e0
  else enrolled

/-- update_enrollment of generate-report.py.  When the actor is truthy
and not the unknown sentinel, its enrolled entry is created if missing
and then bumped; a scan snapshot is always appended, the scans list is
truncated to the last 500 entries, and the stats object is recomputed
from the retained list. -/
def update_enrollment (ctx : EnvCtx) (data : EnrollData) : EnrollData :=
  let enrolled1 := updateEnrolled ctx data.enrolled
  let scans2 := keepLast500 (data.scans ++ [mkScanEntry ctx])
  let total := scans2.length
  let passed := (scans2.filter fun s => s.gate == "PASSED").length
  { enrolled := enrolled1
    scans := scans2
    stats := some
      { total_scans := total
        passed_scans := passed
        failed_scans := total - passed
        pass_rate := if total = 0 then 0 else round1 ((passed : Rat) / (total : Rat) * 100)
        total_enrolled := enrolled1.length
        total_issues_found := (scans2.map (fun s => s.total_issues)).sum
        last_updated := ctx.now } }

/- ────────────────────────────────────────────────────────────
Sample inputs used by concrete witnesses and counterexamples
──────────────────────────────────────────────────────────── -/

/-- A trivial stand-in for read_file_snippet (its return value never
matters to the properties proved here). -/
def snip0 : String → Int → String := fun _ _ => ""

/-- A Semgrep result whose severity is ERROR. -/
def sampleSemgrepError : SemgrepResult :=
  { check_id := some "rules.app.sqli", path := some "app.py", start_line := some 3,
    extra_severity := some "ERROR", extra_message := some "SQL injection", extra_metadata_fix := none }

/-- A Checkov failed check with severity CRITICAL and a one-element
file_line_range. -/
def sampleCheckovCritical : CheckovCheck :=
  { severity := some "CRITICAL", check_id := some "CKV_AWS_1", check_name := some "bucket open",
    check_guideline := some "close it", repo_file_path := some "main.tf", file_line_range := some [4] }

/-- A Checkov failed check with severity CRITICAL whose file_line_range
is a present but empty list. -/
def sampleCheckovEmptyRange : CheckovCheck :=
  { severity := some "CRITICAL", check_id := some "CKV_AWS_2", check_name := some "weak policy",
    check_guideline := none, repo_file_path := some "iam.tf", file_line_range := some [] }

/-- A Trivy Results entry holding one HIGH vulnerability whose Title is
absent and whose Description is JSON null. -/
def sampleTrivyNullDesc : TrivyResult :=
  { Target := some "requirements.txt",
    Vulnerabilities := [{ Severity := some "HIGH", VulnerabilityID := some "CVE-1",
                          Title := none, Description := some none, PkgName := some "libx",
                          InstalledVersion := some "1.0", FixedVersion := none }] }

/-- A Nuclei row with native severity medium. -/
def sampleNucleiMedium : NucleiRow :=
  { info_severity := some "medium", info_name := some "open redirect", info_description := none,
    info_remediation := none, matched_at := some "https://x.test/a", host := none,
    template_id := some "redirect", extracted_results := none }

/-- A Nuclei row with native severity written as High (mixed case). -/
def sampleNucleiUpperHigh : NucleiRow :=
  { info_severity := some "High", info_name := some "exposed panel", info_description := none,
    info_remediation := none, matched_at := some "https://x.test/b", host := none,
    template_id := some "panel", extracted_results := none }

/-- A Nuclei row with native severity critical. -/
def sampleNucleiCritical : NucleiRow :=
  { info_severity := some "critical", info_name := some "rce", info_description := some "remote code",
    info_remediation := some "patch", matched_at := some "https://x.test/c", host := none,
    template_id := some "rce", extracted_results := some ["proof"] }

/-- An environment context whose actor is the developer alice. -/
def ctxAlice : EnvCtx :=
  { actor := "alice", repo := "org/app", run_id := "7", run_url := "https://ci/7",
    event := "push", ref := "main",
    results := { secrets := { result := "success", count := 0 },
                 sast := { result := "failure", count := 2 },
                 sca := { result := "success", count := 0 },
                 dast := { result := "success", count := 0 },
                 iac := { result := "success", count := 0 } },
    now := "2026-01-01T00:00:00" }

/-- An environment context whose actor is the unknown sentinel. -/
def ctxUnknown : EnvCtx :=
  { ctxAlice with actor := "unknown" }

/-- An enrollment store with two enrolled developers and no scans. -/
def dataAliceBob : EnrollData :=
  { enrolled := [("alice", { first_seen := "t0", scan_count := 3, issues_found := 5,
                             last_scan := "t1", status := "enrolled" }),
                 ("bob", { first_seen := "t0", scan_count := 1, issues_found := 0,
                           last_scan := "t2", status := "enrolled" })],
    scans := [], stats := none }

/-- An enrollment store whose scans list already holds 500 entries. -/
def dataFull500 : EnrollData :=
  { enrolled := [], scans := List.replicate 500 (mkScanEntry ctxUnknown), stats := none }

/- ────────────────────────────────────────────────────────────
Helper lemmas about the stable severity sort
──────────────────────────────────────────────────────────── -/

theorem sevLe_trans (a b c : DashFinding)
    (hab : decide (sevRank a.severity ≤ sevRank b.severity) = true)
    (hbc : decide (sevRank b.severity ≤ sevRank c.severity) = true) :
    decide (sevRank a.severity ≤ sevRank c.severity) = true := by
  simp only [decide_eq_true_eq] at *
  omega

theorem sevLe_total (a b : DashFinding) :
    (decide (sevRank a.severity ≤ sevRank b.severity) ||
     decide (sevRank b.severity ≤ sevRank a.severity)) = true := by
  rcases Nat.le_total (sevRank a.severity) (sevRank b.severity) with h | h <;>
    simp [h]

/-- The sorted dashboard list is ordered by severity rank. -/
theorem pySortBySev_sorted (fs : List DashFinding) :
    (pySortBySev fs).Pairwise (fun a b => sevRank a.severity ≤ sevRank b.severity) := by
  have h := @List.sorted_mergeSort DashFinding
    (fun a b : DashFinding => decide (sevRank a.severity ≤ sevRank b.severity))
    sevLe_trans sevLe_total fs
  exact h.imp (fun hab => by simpa using hab)

/-- Stability of the dashboard sort: within each severity class the
sorted list preserves the relative order of the input list. -/
theorem pySortBySev_stable (fs : List DashFinding) (s : String) :
    (pySortBySev fs).filter (fun f => f.severity == s) =
      fs.filter (fun f => f.severity == s) := by
  have hmem : ∀ f ∈ fs.filter (fun f => f.severity == s), f.severity = s := by
    intro f hf
    have := List.of_mem_filter hf
    simpa using this
  have hpw : (fs.filter (fun f => f.severity == s)).Pairwise
      (fun a b => decide (sevRank a.severity ≤ sevRank b.severity) = true) := by
    apply List.pairwise_of_forall_mem_list
    intro a ha b hb
    rw [hmem a ha, hmem b hb]
    simp
  have hsub : List.Sublist (fs.filter (fun f => f.severity == s)) (pySortBySev fs) := by
    apply List.sublist_mergeSort sevLe_trans sevLe_total hpw
    exact List.filter_sublist fs
  have hsub2 : List.Sublist (fs.filter (fun f => f.severity == s))
      ((pySortBySev fs).filter (fun f => f.severity == s)) := by
    have h2 : List.Sublist ((fs.filter (fun f => f.severity == s)).filter
          (fun f => f.severity == s))
        ((pySortBySev fs).filter (fun f => f.severity == s)) :=
      List.Sublist.filter _ hsub
    simpa [List.filter_filter] using h2
  have hperm : List.Perm ((pySortBySev fs).filter (fun f => f.severity == s))
      (fs.filter (fun f => f.severity == s)) :=
    (List.mergeSort_perm fs _).filter _
  exact (hsub2.eq_of_length hperm.length_eq.symm).symm

/- ────────────────────────────────────────────────────────────
Shape lemmas: where each produced finding comes from
──────────────────────────────────────────────────────────── -/

theorem mem_semgrepFindingsDash {rs : List SemgrepResult} {f : DashFinding}
    (h : f ∈ semgrepFindingsDash rs) : ∃ r ∈ rs.take 20, f = mkSemgrepDash r := by
  rcases List.mem_map.mp h with ⟨r, hr, rfl⟩
  exact ⟨r, hr, rfl⟩

theorem mem_trivyFindingsDash {results : List TrivyResult} {f : DashFinding}
    (h : f ∈ trivyFindingsDash results) :
    ∃ res ∈ results, ∃ v ∈ res.Vulnerabilities.take 10,
      trivyKeptDash v = true ∧ f = mkTrivyDash res.Target v := by
  rcases List.mem_flatMap.mp h with ⟨res, hres, hmem⟩
  rcases List.mem_map.mp hmem with ⟨v, hv, rfl⟩
  rcases List.mem_filter.mp hv with ⟨hv1, hv2⟩
  exact ⟨res, hres, v, hv1, hv2, rfl⟩

theorem mem_nucleiFindingsDash {rows : List NucleiRow} {f : DashFinding}
    (h : f ∈ nucleiFindingsDash rows) :
    ∃ r ∈ rows.take 10, nucleiKeptDash r = true ∧ f = mkNucleiDash r := by
  rcases List.mem_map.mp h with ⟨r, hr, rfl⟩
  rcases List.mem_filter.mp hr with ⟨hr1, hr2⟩
  exact ⟨r, hr1, hr2, rfl⟩

theorem checkovDashList_shape {cs : List CheckovCheck} {fs : List DashFinding}
    (h : checkovDashList cs = .ok fs) :
    ∀ f ∈ fs, ∃ c ln, checkovKeptDash c = true ∧ f = mkCheckovDash c ln := by
  induction cs generalizing fs with
  | nil =>
    simp only [checkovDashList, Except.ok.injEq] at h
    subst h
    intro f hf
    simp at hf
  | cons c cs ih =>
    intro f hf
    by_cases hk : checkovKeptDash c
    · cases hp : pyHead (c.file_line_range.getD [0]) with
      | error e => simp [checkovDashList, hk, hp] at h
      | ok ln =>
        cases hr : checkovDashList cs with
        | error e => simp [checkovDashList, hk, hp, hr] at h
        | ok rest =>
          simp only [checkovDashList, hk, if_true, hp, hr, Except.ok.injEq] at h
          subst h
          rcases List.mem_cons.mp hf with rfl | hf2
          · exact ⟨c, ln, hk, rfl⟩
          · exact ih hr f hf2
    · simp only [checkovDashList, hk, if_false, Bool.false_eq_true] at h
      exact ih h f hf

theorem mem_semgrepFindingsFix {snip : String → Int → String}
    {rs : List SemgrepResult} {f : FixFinding}
    (h : f ∈ semgrepFindingsFix snip rs) :
    ∃ r ∈ rs.take 5, semgrepKeptFix r = true ∧ f = mkSemgrepFix snip r := by
  rcases List.mem_map.mp h with ⟨r, hr, rfl⟩
  rcases List.mem_filter.mp hr with ⟨hr1, hr2⟩
  exact ⟨r, hr1, hr2, rfl⟩

theorem mem_nucleiFindingsFix {rows : List NucleiRow} {f : FixFinding}
    (h : f ∈ nucleiFindingsFix rows) :
    ∃ r ∈ rows.take 3, nucleiKeptFix r = true ∧ f = mkNucleiFix r := by
  rcases List.mem_map.mp h with ⟨r, hr, rfl⟩
  rcases List.mem_filter.mp hr with ⟨hr1, hr2⟩
  exact ⟨r, hr1, hr2, rfl⟩

theorem trivyFixVulns_shape {target : Option String} {vs : List TrivyVuln}
    {fs : List FixFinding} (h : trivyFixVulns target vs = .ok fs) :
    ∀ f ∈ fs, ∃ v msg, trivyKeptFix v = true ∧ f = mkTrivyFix target v msg := by
  induction vs generalizing fs with
  | nil =>
    simp only [trivyFixVulns, Except.ok.injEq] at h
    subst h
    intro f hf
    simp at hf
  | cons v vs ih =>
    intro f hf
    by_cases hk : trivyKeptFix v
    · cases hp : trivyFixMsg v with
      | error e => simp [trivyFixVulns, hk, hp] at h
      | ok msg =>
        cases hr : trivyFixVulns target vs with
        | error e => simp [trivyFixVulns, hk, hp, hr] at h
        | ok rest =>
          simp only [trivyFixVulns, hk, if_true, hp, hr, Except.ok.injEq] at h
          subst h
          rcases List.mem_cons.mp hf with rfl | hf2
          · exact ⟨v, msg, hk, rfl⟩
          · exact ih hr f hf2
    · simp only [trivyFixVulns, hk, if_false, Bool.false_eq_true] at h
      exact ih h f hf

theorem trivyFixResults_shape {rs : List TrivyResult} {fs : List FixFinding}
    (h : trivyFixResults rs = .ok fs) :
    ∀ f ∈ fs, ∃ target v msg, trivyKeptFix v = true ∧ f = mkTrivyFix target v msg := by
  induction rs generalizing fs with
  | nil =>
    simp only [trivyFixResults, Except.ok.injEq] at h
    subst h
    intro f hf
    simp at hf
  | cons r rs ih =>
    intro f hf
    cases ha : trivyFixVulns r.Target (r.Vulnerabilities.take 3) with
    | error e => simp [trivyFixResults, ha] at h
    | ok a =>
      cases hb : trivyFixResults rs with
      | error e => simp [trivyFixResults, ha, hb] at h
      | ok b =>
        simp only [trivyFixResults, ha, hb, Except.ok.injEq] at h
        subst h
        rcases List.mem_append.mp hf with hf1 | hf2
        · rcases trivyFixVulns_shape ha f hf1 with ⟨v, msg, hk, rfl⟩
          exact ⟨r.Target, v, msg, hk, rfl⟩
        · exact ih hb f hf2

theorem checkovFixList_shape {snip : String → Int → String} {cs : List CheckovCheck}
    {fs : List FixFinding} (h : checkovFixList snip cs = .ok fs) :
    ∀ f ∈ fs, ∃ c ln ln2, checkovKeptFix c = true ∧ f = mkCheckovFix snip c ln ln2 := by
  induction cs generalizing fs with
  | nil =>
    simp only [checkovFixList, Except.ok.injEq] at h
    subst h
    intro f hf
    simp at hf
  | cons c cs ih =>
    intro f hf
    by_cases hk : checkovKeptFix c
    · cases hp : pyHead (c.file_line_range.getD [0]) with
      | error e => simp [checkovFixList, hk, hp] at h
      | ok ln =>
        cases hp2 : pyHead (c.file_line_range.getD [0, 0]) with
        | error e => simp [checkovFixList, hk, hp, hp2] at h
        | ok ln2 =>
          cases hr : checkovFixList snip cs with
          | error e => simp [checkovFixList, hk, hp, hp2, hr] at h
          | ok rest =>
            simp only [checkovFixList, hk, if_true, hp, hp2, hr, Except.ok.injEq] at h
            subst h
            rcases List.mem_cons.mp hf with rfl | hf2
            · exact ⟨c, ln, ln2, hk, rfl⟩
            · exact ih hr f hf2
    · simp only [checkovFixList, hk, if_false, Bool.false_eq_true] at h
      exact ih h f hf

/- ────────────────────────────────────────────────────────────
Field characterization lemmas for kept findings
──────────────────────────────────────────────────────────── -/

theorem sev_mkSemgrepDash (r : SemgrepResult) :
    (mkSemgrepDash r).severity = "HIGH" ∨ (mkSemgrepDash r).severity = "MEDIUM" := by
  unfold mkSemgrepDash
  by_cases h : r.extra_severity.getD "WARNING" = "ERROR" <;> simp [h]

theorem sev_mkTrivyDash {target : Option String} {v : TrivyVuln}
    (h : trivyKeptDash v = true) :
    (mkTrivyDash target v).severity = "CRITICAL" ∨ (mkTrivyDash target v).severity = "HIGH" := by
  unfold trivyKeptDash at h
  unfold mkTrivyDash fmtOpt
  rcases Bool.or_eq_true_iff.mp h with h1 | h1 <;>
    rw [show v.Severity = some _ from beq_iff_eq.mp h1] <;> simp

theorem sev_mkNucleiDash {r : NucleiRow} (h : nucleiKeptDash r = true) :
    (mkNucleiDash r).severity = "CRITICAL" ∨ (mkNucleiDash r).severity = "HIGH" ∨
      (mkNucleiDash r).severity = "MEDIUM" := by
  unfold nucleiKeptDash at h
  unfold mkNucleiDash
  rcases Bool.or_eq_true_iff.mp h with h1 | h1
  · rcases Bool.or_eq_true_iff.mp h1 with h2 | h2
    · exact Or.inl (beq_iff_eq.mp h2)
    · exact Or.inr (Or.inl (beq_iff_eq.mp h2))
  · exact Or.inr (Or.inr (beq_iff_eq.mp h1))

theorem sev_mkCheckovDash {c : CheckovCheck} (ln : Int) (h : checkovKeptDash c = true) :
    (mkCheckovDash c ln).severity = "CRITICAL" ∨ (mkCheckovDash c ln).severity = "HIGH" := by
  unfold checkovKeptDash at h
  unfold mkCheckovDash
  rcases Bool.or_eq_true_iff.mp h with h1 | h1
  · exact Or.inl (beq_iff_eq.mp h1)
  · exact Or.inr (beq_iff_eq.mp h1)

theorem sev_mkTrivyFix {target : Option String} {v : TrivyVuln} (msg : String)
    (h : trivyKeptFix v = true) :
    (mkTrivyFix target v msg).severity = "CRITICAL" ∨
      (mkTrivyFix target v msg).severity = "HIGH" := by
  unfold trivyKeptFix at h
  unfold mkTrivyFix
  rcases Bool.or_eq_true_iff.mp h with h1 | h1 <;>
    rw [show v.Severity = some _ from beq_iff_eq.mp h1] <;> simp

theorem sev_mkNucleiFix {r : NucleiRow} (h : nucleiKeptFix r = true) :
    (mkNucleiFix r).severity = "CRITICAL" ∨ (mkNucleiFix r).severity = "HIGH" := by
  unfold nucleiKeptFix at h
  unfold mkNucleiFix
  rcases Bool.or_eq_true_iff.mp h with h1 | h1 <;>
    rw [show r.info_severity = some _ from beq_iff_eq.mp h1] <;> simp <;> decide

/- ────────────────────────────────────────────────────────────
Composite lemmas over the two merged lists
──────────────────────────────────────────────────────────── -/

theorem dashboardRaw_fields {sast : List SemgrepResult} {sca : List TrivyResult}
    {dast : List NucleiRow} {iac : List CheckovCheck} {raw : List DashFinding}
    (h : dashboardRaw sast sca dast iac = .ok raw) :
    ∀ f ∈ raw,
      (f.severity = "CRITICAL" ∨ f.severity = "HIGH" ∨ f.severity = "MEDIUM" ∨
        f.severity = "LOW") ∧
      (f.tool = "Semgrep" ∨ f.tool = "Trivy" ∨ f.tool = "Nuclei" ∨ f.tool = "Checkov") := by
  intro f hf
  unfold dashboardRaw at h
  cases hk : checkovFindingsDash iac with
  | error e => rw [hk] at h; cases h
  | ok kf =>
    rw [hk] at h
    cases h
    rcases List.mem_append.mp hf with hf3 | hfc
    · rcases List.mem_append.mp hf3 with hf2 | hfn
      · rcases List.mem_append.mp hf2 with hfs | hft
        · rcases mem_semgrepFindingsDash hfs with ⟨r, _, rfl⟩
          refine ⟨?_, Or.inl rfl⟩
          rcases sev_mkSemgrepDash r with h1 | h1
          · exact Or.inr (Or.inl h1)
          · exact Or.inr (Or.inr (Or.inl h1))
        · rcases mem_trivyFindingsDash hft with ⟨res, _, v, _, hkept, rfl⟩
          refine ⟨?_, Or.inr (Or.inl rfl)⟩
          rcases sev_mkTrivyDash hkept with h1 | h1
          · exact Or.inl h1
          · exact Or.inr (Or.inl h1)
      · rcases mem_nucleiFindingsDash hfn with ⟨r, _, hkept, rfl⟩
        refine ⟨?_, Or.inr (Or.inr (Or.inl rfl))⟩
        rcases sev_mkNucleiDash hkept with h1 | h1 | h1
        · exact Or.inl h1
        · exact Or.inr (Or.inl h1)
        · exact Or.inr (Or.inr (Or.inl h1))
    · rcases checkovDashList_shape (by simpa [checkovFindingsDash] using hk) f hfc with
        ⟨c, ln, hkept, rfl⟩
      refine ⟨?_, Or.inr (Or.inr (Or.inr rfl))⟩
      rcases sev_mkCheckovDash ln hkept with h1 | h1
      · exact Or.inl h1
      · exact Or.inr (Or.inl h1)

theorem collect_findings_sev {snip : String → Int → String} {sast : List SemgrepResult}
    {sca : List TrivyResult} {iac : List CheckovCheck} {dast : List NucleiRow}
    {fs : List FixFinding} (h : collect_findings snip sast sca iac dast = .ok fs) :
    ∀ f ∈ fs, f.severity = "CRITICAL" ∨ f.severity = "HIGH" := by
  intro f hf
  unfold collect_findings at h
  cases ht : trivyFindingsFix sca with
  | error e => rw [ht] at h; cases h
  | ok t =>
    rw [ht] at h
    cases hc : checkovFindingsFix snip iac with
    | error e => rw [hc] at h; cases h
    | ok k =>
      rw [hc] at h
      cases h
      have hf2 := List.mem_of_mem_take hf
      rcases List.mem_append.mp hf2 with hf3 | hfn
      · rcases List.mem_append.mp hf3 with hf4 | hfk
        · rcases List.mem_append.mp hf4 with hfs | hft
          · rcases mem_semgrepFindingsFix hfs with ⟨r, _, _, rfl⟩
            exact Or.inr rfl
          · rcases trivyFixResults_shape (by simpa [trivyFindingsFix] using ht) f hft with
              ⟨tg, v, msg, hkept, rfl⟩
            exact sev_mkTrivyFix msg hkept
        · rcases checkovFixList_shape (by simpa [checkovFindingsFix] using hc) f hfk with
            ⟨c, l1, l2, hkept, rfl⟩
          exact Or.inl rfl
      · rcases mem_nucleiFindingsFix hfn with ⟨r, _, hkept, rfl⟩
        exact sev_mkNucleiFix hkept

/- ────────────────────────────────────────────────────────────
Claim C1
──────────────────────────────────────────────────────────── -/

/-- C1 counterexample: the AI-fix flow does not sort.  With one Semgrep
ERROR result and one CRITICAL Checkov check, collect_findings returns
the HIGH Semgrep finding before the CRITICAL Checkov finding, so a
lower-ranked severity precedes a higher-ranked one. -/
theorem c1_counterexample :
    (collect_findings snip0 [sampleSemgrepError] [] [sampleCheckovCritical] []).map
        (fun fs => fs.map (fun f => f.severity)) = .ok ["HIGH", "CRITICAL"] ∧
    ¬ sevRank "HIGH" ≤ sevRank "CRITICAL" := by
  exact ⟨rfl, by decide⟩

/-- C1 (amended): the sorted-by-rank and stable-sort property holds for
the dashboard flow of generate-report.py: whenever the merged list is
built without raising, the final findings list is its stable sort by
severity rank — ordered by rank, and within each severity class
preserving the append order.  The AI-fix flow list is not sorted (see
the counterexample). -/
theorem c1_dashboard_sorted_stable (sast : List SemgrepResult) (sca : List TrivyResult)
    (dast : List NucleiRow) (iac : List CheckovCheck) (raw : List DashFinding)
    (h : dashboardRaw sast sca dast iac = .ok raw) :
    dashboardFindings sast sca dast iac = .ok (pySortBySev raw) ∧
    (pySortBySev raw).Pairwise (fun a b => sevRank a.severity ≤ sevRank b.severity) ∧
    ∀ s, (pySortBySev raw).filter (fun f => f.severity == s) =
      raw.filter (fun f => f.severity == s) := by
  refine ⟨?_, pySortBySev_sorted raw, fun s => pySortBySev_stable raw s⟩
  unfold dashboardFindings
  rw [h]
  rfl

/-- Witness for C1 at a concrete input. -/
theorem c1_witness :
    dashboardRaw [] [] [] [] = .ok [] ∧ dashboardFindings [] [] [] [] = .ok (pySortBySev []) :=
  ⟨rfl, (c1_dashboard_sorted_stable [] [] [] [] [] rfl).1⟩

/- ────────────────────────────────────────────────────────────
Claim C2
──────────────────────────────────────────────────────────── -/

/-- C2: the list returned by collect_findings never exceeds
MAX_FIXES_PER_RUN = 10 findings, and the cap is applied to the merged
list after all four tool sections are concatenated. -/
theorem c2_fix_cap (snip : String → Int → String) (sast : List SemgrepResult)
    (sca : List TrivyResult) (iac : List CheckovCheck) (dast : List NucleiRow) :
    (∀ fs, collect_findings snip sast sca iac dast = .ok fs → fs.length ≤ 10) ∧
    (∀ t k, trivyFindingsFix sca = .ok t → checkovFindingsFix snip iac = .ok k →
      collect_findings snip sast sca iac dast =
        .ok ((semgrepFindingsFix snip sast ++ t ++ k ++ nucleiFindingsFix dast).take
              MAX_FIXES_PER_RUN)) := by
  constructor
  · intro fs h
    unfold collect_findings at h
    cases ht : trivyFindingsFix sca with
    | error e => rw [ht] at h; cases h
    | ok t =>
      rw [ht] at h
      cases hc : checkovFindingsFix snip iac with
      | error e => rw [hc] at h; cases h
      | ok k =>
        rw [hc] at h
        cases h
        exact List.length_take_le _ _
  · intro t k ht hk
    unfold collect_findings
    rw [ht, hk]

/-- Witness for C2 at a concrete input. -/
theorem c2_witness :
    ([mkSemgrepFix snip0 sampleSemgrepError] : List FixFinding).length ≤ 10 :=
  (c2_fix_cap snip0 [sampleSemgrepError] [] [] []).1
    [mkSemgrepFix snip0 sampleSemgrepError] rfl

/- ────────────────────────────────────────────────────────────
Claim C3
──────────────────────────────────────────────────────────── -/

/-- C3: every Finding produced by either call site has severity equal to
one of the four strings CRITICAL, HIGH, MEDIUM, LOW. -/
theorem c3_severity_enum (snip : String → Int → String) (sast : List SemgrepResult)
    (sca : List TrivyResult) (dast : List NucleiRow) (iac : List CheckovCheck) :
    (∀ fs, dashboardFindings sast sca dast iac = .ok fs →
      ∀ f ∈ fs, f.severity ∈ (["CRITICAL", "HIGH", "MEDIUM", "LOW"] : List String)) ∧
    (∀ fs, collect_findings snip sast sca iac dast = .ok fs →
      ∀ f ∈ fs, f.severity ∈ (["CRITICAL", "HIGH", "MEDIUM", "LOW"] : List String)) := by
  constructor
  · intro fs h f hf
    unfold dashboardFindings at h
    cases hraw : dashboardRaw sast sca dast iac with
    | error e => rw [hraw] at h; cases h
    | ok raw =>
      rw [hraw] at h
      cases h
      have hmem : f ∈ raw := by
        have := hf
        simpa [pySortBySev] using this
      rcases (dashboardRaw_fields hraw f hmem).1 with h1 | h1 | h1 | h1 <;> simp [h1]
  · intro fs h f hf
    rcases collect_findings_sev h f hf with h1 | h1 <;> simp [h1]

/-- Witness for C3 at concrete inputs. -/
theorem c3_witness :
    (mkNucleiDash sampleNucleiCritical).severity ∈
      (["CRITICAL", "HIGH", "MEDIUM", "LOW"] : List String) ∧
    (mkSemgrepFix snip0 sampleSemgrepError).severity ∈
      (["CRITICAL", "HIGH", "MEDIUM", "LOW"] : List String) := by
  constructor
  · have hd : dashboardFindings [] [] [sampleNucleiCritical] [] =
        .ok [mkNucleiDash sampleNucleiCritical] := by
      have h1 : dashboardRaw [] [] [sampleNucleiCritical] [] =
          .ok [mkNucleiDash sampleNucleiCritical] := rfl
      simp [dashboardFindings, h1, pySortBySev, Except.map]
    exact (c3_severity_enum snip0 [] [] [sampleNucleiCritical] []).1
      [mkNucleiDash sampleNucleiCritical] hd _ (by simp)
  · exact (c3_severity_enum snip0 [sampleSemgrepError] [] [] []).2
      [mkSemgrepFix snip0 sampleSemgrepError] rfl _ (by simp)

/- ────────────────────────────────────────────────────────────
Claim C4
──────────────────────────────────────────────────────────── -/

/-- C4 counterexample: the keep rule is not — keep iff critical or high,
case-insensitively — in either flow.  The dashboard flow also keeps a
row with native severity medium, and the AI-fix flow drops a row whose
native severity High differs from the lower-case literals only by
case. -/
theorem c4_counterexample :
    (nucleiFindingsDash [sampleNucleiMedium] = [mkNucleiDash sampleNucleiMedium] ∧
     (mkNucleiDash sampleNucleiMedium).severity = "MEDIUM" ∧
     sampleNucleiMedium.info_severity = some "medium") ∧
    (nucleiFindingsFix [sampleNucleiUpperHigh] = [] ∧
     sampleNucleiUpperHigh.info_severity = some "High") := by
  exact ⟨⟨rfl, rfl, rfl⟩, rfl, rfl⟩

/-- C4 (amended): the AI-fix flow takes the first 3 dynamic-scanner
rows and keeps exactly those whose native severity equals the
lower-case string critical or high under a case-sensitive comparison;
the dashboard flow takes the first 10 rows and keeps exactly those
whose upper-cased severity is CRITICAL, HIGH, or MEDIUM; each kept row
has its severity upper-cased in the output. -/
theorem c4_nuclei_policy (rows : List NucleiRow) :
    nucleiFindingsFix rows =
      ((rows.take 3).filter fun r =>
        r.info_severity == some "critical" || r.info_severity == some "high").map
        mkNucleiFix ∧
    nucleiFindingsDash rows =
      ((rows.take 10).filter fun r =>
        pyUpper (r.info_severity.getD "info") == "CRITICAL" ||
        pyUpper (r.info_severity.getD "info") == "HIGH" ||
        pyUpper (r.info_severity.getD "info") == "MEDIUM").map mkNucleiDash ∧
    (nucleiFindingsFix rows).length ≤ 3 ∧
    (nucleiFindingsDash rows).length ≤ 10 ∧
    (∀ r, (mkNucleiFix r).severity = pyUpper (r.info_severity.getD "high")) ∧
    (∀ r, (mkNucleiDash r).severity = pyUpper (r.info_severity.getD "info")) := by
  refine ⟨rfl, rfl, ?_, ?_, fun r => rfl, fun r => rfl⟩
  · unfold nucleiFindingsFix
    rw [List.length_map]
    exact le_trans (List.length_filter_le _ _) (List.length_take_le _ _)
  · unfold nucleiFindingsDash
    rw [List.length_map]
    exact le_trans (List.length_filter_le _ _) (List.length_take_le _ _)

/- ────────────────────────────────────────────────────────────
Claim C5
──────────────────────────────────────────────────────────── -/

/-- C5: the claim states the no-raise contract the source evidently
intends — every extraction supplies a get default precisely so that
the following operation cannot fail (the default list 0 exists only to
make the position-0 index safe, the default empty string only to make
the slice safe) — but the code violates it on the claim level inputs:
a kept Checkov failed check whose file_line_range is a present empty
list raises IndexError in both call sites, because the get default
guards only an absent key, not a present empty value; and in the
AI-fix flow a kept Trivy vulnerability whose Title is falsy and whose
Description is JSON null raises TypeError while slicing None.  This
theorem evaluates the embedded code at both failing inputs.  (The
dashboard flow has further raising shapes on JSON-null string fields,
outside the embedded input space; they only add to the violation.) -/
theorem c5_counterexample :
    (collect_findings snip0 [] [] [sampleCheckovEmptyRange] [] = .error .indexError ∧
     dashboardFindings [] [] [] [sampleCheckovEmptyRange] = .error .indexError) ∧
    collect_findings snip0 [] [sampleTrivyNullDesc] [] [] = .error .typeError :=
  ⟨⟨rfl, rfl⟩, rfl⟩

/- ────────────────────────────────────────────────────────────
Claim C6
──────────────────────────────────────────────────────────── -/

/-- C6 counterexample: the dashboard merged list is not limited to
Semgrep and Trivy findings — a critical Nuclei row lands in it. -/
theorem c6_counterexample :
    dashboardFindings [] [] [sampleNucleiCritical] [] =
      .ok [mkNucleiDash sampleNucleiCritical] ∧
    (mkNucleiDash sampleNucleiCritical).tool = "Nuclei" := by
  constructor
  · have h1 : dashboardRaw [] [] [sampleNucleiCritical] [] =
        .ok [mkNucleiDash sampleNucleiCritical] := rfl
    simp [dashboardFindings, h1, pySortBySev, Except.map]
  · rfl

/-- C6 (amended): the dashboard merged ranked list draws from four
scanners: every finding in it has tool Semgrep, Trivy, Nuclei or
Checkov (only the secret scanner is absent from the table). -/
theorem c6_dashboard_tools (sast : List SemgrepResult) (sca : List TrivyResult)
    (dast : List NucleiRow) (iac : List CheckovCheck) :
    ∀ fs, dashboardFindings sast sca dast iac = .ok fs →
      ∀ f ∈ fs, f.tool ∈ (["Semgrep", "Trivy", "Nuclei", "Checkov"] : List String) := by
  intro fs h f hf
  unfold dashboardFindings at h
  cases hraw : dashboardRaw sast sca dast iac with
  | error e => rw [hraw] at h; cases h
  | ok raw =>
    rw [hraw] at h
    cases h
    have hmem : f ∈ raw := by simpa [pySortBySev] using hf
    rcases (dashboardRaw_fields hraw f hmem).2 with h1 | h1 | h1 | h1 <;> simp [h1]

/-- Witness for C6 at a concrete input. -/
theorem c6_witness :
    (mkNucleiDash sampleNucleiCritical).tool ∈
      (["Semgrep", "Trivy", "Nuclei", "Checkov"] : List String) := by
  have hd : dashboardFindings [] [] [sampleNucleiCritical] [] =
      .ok [mkNucleiDash sampleNucleiCritical] := by
    have h1 : dashboardRaw [] [] [sampleNucleiCritical] [] =
        .ok [mkNucleiDash sampleNucleiCritical] := rfl
    simp [dashboardFindings, h1, pySortBySev, Except.map]
  exact c6_dashboard_tools [] [] [sampleNucleiCritical] [] _ hd _ (by simp)

/- ────────────────────────────────────────────────────────────
Claim C7
──────────────────────────────────────────────────────────── -/

/-- C7: static-analyzer mapping.  The dashboard flow maps each of the
first 20 Semgrep results to a finding whose severity is HIGH exactly
when the native severity equals ERROR and MEDIUM for every other value
(including an absent field, which defaults to WARNING); the AI-fix flow
keeps, out of the first 5 raw results, exactly those whose native
severity equals ERROR, each mapped to HIGH. -/
theorem c7_semgrep_mapping (snip : String → Int → String) (rs : List SemgrepResult) :
    semgrepFindingsDash rs = (rs.take 20).map mkSemgrepDash ∧
    (∀ r, (mkSemgrepDash r).severity =
      if r.extra_severity.getD "WARNING" = "ERROR" then "HIGH" else "MEDIUM") ∧
    semgrepFindingsFix snip rs =
      ((rs.take 5).filter fun r => r.extra_severity == some "ERROR").map
        (mkSemgrepFix snip) ∧
    (∀ r, (mkSemgrepFix snip r).severity = "HIGH") ∧
    (semgrepFindingsFix snip rs).length ≤ 5 ∧
    (semgrepFindingsDash rs).length = min 20 rs.length := by
  refine ⟨rfl, fun r => rfl, rfl, fun r => rfl, ?_, ?_⟩
  · unfold semgrepFindingsFix
    rw [List.length_map]
    exact le_trans (List.length_filter_le _ _) (List.length_take_le _ _)
  · unfold semgrepFindingsDash
    rw [List.length_map, List.length_take]

/- ────────────────────────────────────────────────────────────
Helper lemmas for the enrollment store
──────────────────────────────────────────────────────────── -/

set_option maxRecDepth 4096 in
theorem update_scans_eq (ctx : EnvCtx) (d : EnrollData) :
    (update_enrollment ctx d).scans = keepLast500 (d.scans ++ [mkScanEntry ctx]) := rfl

set_option maxRecDepth 4096 in
theorem update_enrolled_eq (ctx : EnvCtx) (d : EnrollData) :
    (update_enrollment ctx d).enrolled = updateEnrolled ctx d.enrolled := rfl

theorem lookupDev_setDev_self (k : String) (v : DevEntry) (l : List (String × DevEntry)) :
    lookupDev k (setDev k v l) = some v := by
  induction l with
  | nil => simp [setDev, lookupDev]
  | cons p l ih =>
    obtain ⟨k2, v2⟩ := p
    by_cases h : k2 == k
    · simp [setDev, h, lookupDev]
    · simp [setDev, h, lookupDev, ih]

theorem lookupDev_setDev_ne (k b : String) (hne : b ≠ k) (v : DevEntry)
    (l : List (String × DevEntry)) :
    lookupDev b (setDev k v l) = lookupDev b l := by
  have hkb : (k == b) = false := beq_eq_false_iff_ne.mpr (Ne.symm hne)
  induction l with
  | nil => simp [setDev, lookupDev, hkb]
  | cons p l ih =>
    obtain ⟨k2, v2⟩ := p
    by_cases h : k2 == k
    · have hk2 : k2 = k := beq_iff_eq.mp h
      subst hk2
      simp [setDev, lookupDev, hkb]
    · simp [setDev, h, lookupDev, ih]

theorem updateEnrolled_skip (ctx : EnvCtx) (e : List (String × DevEntry))
    (h : ¬(ctx.actor ≠ "" ∧ ctx.actor ≠ "unknown")) :
    updateEnrolled ctx e = e := by
  unfold updateEnrolled
  rw [if_neg h]

theorem updateEnrolled_self (ctx : EnvCtx) (e : List (String × DevEntry))
    (h1 : ctx.actor ≠ "") (h2 : ctx.actor ≠ "unknown") :
    lookupDev ctx.actor (updateEnrolled ctx e) =
      some (bumpDev ctx.results ctx.now
        ((lookupDev ctx.actor e).getD (freshDev ctx.now))) := by
  unfold updateEnrolled
  rw [if_pos ⟨h1, h2⟩]
  cases hl : lookupDev ctx.actor e with
  | some d => simp only [hl, Option.getD_some, lookupDev_setDev_self]
  | none => simp only [hl, lookupDev_setDev_self, Option.getD_some, Option.getD_none]

theorem updateEnrolled_other (ctx : EnvCtx) (e : List (String × DevEntry))
    (h1 : ctx.actor ≠ "") (h2 : ctx.actor ≠ "unknown")
    (b : String) (hb : b ≠ ctx.actor) :
    lookupDev b (updateEnrolled ctx e) = lookupDev b e := by
  unfold updateEnrolled
  rw [if_pos ⟨h1, h2⟩]
  cases hl : lookupDev ctx.actor e with
  | some d => simp only [hl, lookupDev_setDev_ne _ _ hb]
  | none => simp only [hl, lookupDev_setDev_ne _ _ hb]

theorem update_scans_getLast (ctx : EnvCtx) (d : EnrollData) :
    (update_enrollment ctx d).scans.getLast? = some (mkScanEntry ctx) := by
  rw [update_scans_eq]
  unfold keepLast500
  have harith : (d.scans ++ [mkScanEntry ctx]).length - 500 ≤ d.scans.length := by
    rw [List.length_append, List.length_singleton]
    omega
  rw [List.drop_append_of_le_length harith, List.getLast?_concat]

/- ────────────────────────────────────────────────────────────
Claim C8
──────────────────────────────────────────────────────────── -/

/-- C8: retention.  Updating a store whose scans list holds exactly 500
entries yields the 500-entry list obtained by dropping the oldest entry
and appending the new snapshot; in general the retained list is always
a suffix of the appended list of length min (n+1) 500, truncated from
the front. -/
theorem c8_retention (ctx : EnvCtx) (data : EnrollData) (h : data.scans.length = 500) :
    ((update_enrollment ctx data).scans = data.scans.drop 1 ++ [mkScanEntry ctx] ∧
     (update_enrollment ctx data).scans.length = 500) ∧
    (∀ d2 : EnrollData, (update_enrollment ctx d2).scans.length ≤ 500 ∧
      List.IsSuffix (update_enrollment ctx d2).scans (d2.scans ++ [mkScanEntry ctx]) ∧
      (update_enrollment ctx d2).scans.length = min (d2.scans.length + 1) 500) := by
  constructor
  · constructor
    · rw [update_scans_eq]
      unfold keepLast500
      have hlen : (data.scans ++ [mkScanEntry ctx]).length - 500 = 1 := by
        rw [List.length_append, List.length_singleton, h]
      rw [hlen]
      exact List.drop_append_of_le_length (by omega)
    · rw [update_scans_eq]
      unfold keepLast500
      rw [List.length_drop, List.length_append, List.length_singleton, h]
  · intro d2
    refine ⟨?_, ?_, ?_⟩
    · rw [update_scans_eq]
      unfold keepLast500
      rw [List.length_drop, List.length_append, List.length_singleton]
      omega
    · rw [update_scans_eq]
      exact List.drop_suffix _ _
    · rw [update_scans_eq]
      unfold keepLast500
      rw [List.length_drop, List.length_append, List.length_singleton]
      omega

set_option maxRecDepth 8192 in
/-- Witness for C8 at a concrete input: a store with 500 identical
scans. -/
theorem c8_witness :
    dataFull500.scans.length = 500 ∧
    (update_enrollment ctxAlice dataFull500).scans.length = 500 :=
  ⟨by simp [dataFull500],
   ((c8_retention ctxAlice dataFull500 (by simp [dataFull500])).1).2⟩

/- ────────────────────────────────────────────────────────────
Claim C9
──────────────────────────────────────────────────────────── -/

set_option maxRecDepth 8192 in
/-- C9: after every update, the stats object records total_scans equal
to the retained scans length, passed_scans equal to the count of
retained entries whose gate is PASSED, and pass_rate equal to
passed divided by total, times 100, rounded to one decimal — guarded to
0 when total is 0, a branch that can never be reached because a
snapshot is always appended, so total_scans is positive and no division
by zero occurs. -/
theorem c9_pass_rate (ctx : EnvCtx) (data : EnrollData) :
    ∃ st, (update_enrollment ctx data).stats = some st ∧
      st.total_scans = (update_enrollment ctx data).scans.length ∧
      st.passed_scans =
        ((update_enrollment ctx data).scans.filter fun s => s.gate == "PASSED").length ∧
      st.pass_rate = (if st.total_scans = 0 then 0
        else round1 ((st.passed_scans : Rat) / (st.total_scans : Rat) * 100)) ∧
      0 < st.total_scans := by
  refine ⟨_, rfl, rfl, rfl, rfl, ?_⟩
  show 0 < (keepLast500 (data.scans ++ [mkScanEntry ctx])).length
  unfold keepLast500
  rw [List.length_drop, List.length_append, List.length_singleton]
  omega

/- ────────────────────────────────────────────────────────────
Claim C10
──────────────────────────────────────────────────────────── -/

/-- C10: frame of update_enrollment on the enrolled mapping.  With the
unknown or empty actor the mapping is completely unchanged while a
snapshot is still appended and stats recomputed; with any other actor,
exactly that actor entry is bumped (scan_count up by one, issues_found
up by the run total, last_scan set to the timestamp — starting from the
fresh zero entry when newly enrolled) and every other actor entry is
unchanged. -/
theorem c10_frame (ctx : EnvCtx) (data : EnrollData) :
    ((ctx.actor = "" ∨ ctx.actor = "unknown") →
      (update_enrollment ctx data).enrolled = data.enrolled ∧
      (update_enrollment ctx data).scans.getLast? = some (mkScanEntry ctx) ∧
      ((update_enrollment ctx data).stats).isSome = true) ∧
    (ctx.actor ≠ "" → ctx.actor ≠ "unknown" →
      lookupDev ctx.actor (update_enrollment ctx data).enrolled =
        some (bumpDev ctx.results ctx.now
          ((lookupDev ctx.actor data.enrolled).getD (freshDev ctx.now))) ∧
      ∀ b, b ≠ ctx.actor →
        lookupDev b (update_enrollment ctx data).enrolled = lookupDev b data.enrolled) := by
  constructor
  · intro hor
    have hfalse : ¬(ctx.actor ≠ "" ∧ ctx.actor ≠ "unknown") := by
      rcases hor with h | h <;> simp [h]
    refine ⟨?_, update_scans_getLast ctx data, rfl⟩
    rw [update_enrolled_eq, updateEnrolled_skip ctx data.enrolled hfalse]
  · intro h1 h2
    refine ⟨?_, ?_⟩
    · rw [update_enrolled_eq]
      exact updateEnrolled_self ctx data.enrolled h1 h2
    · intro b hb
      rw [update_enrolled_eq]
      exact updateEnrolled_other ctx data.enrolled h1 h2 b hb

set_option maxRecDepth 8192 in
/-- Witness for C10 at a concrete input: the actor alice is bumped and
the actor bob is untouched; the unknown actor changes nothing. -/
theorem c10_witness :
    lookupDev "alice" (update_enrollment ctxAlice dataAliceBob).enrolled =
      some (bumpDev ctxAlice.results ctxAlice.now
        ((lookupDev "alice" dataAliceBob.enrolled).getD (freshDev ctxAlice.now))) ∧
    lookupDev "bob" (update_enrollment ctxAlice dataAliceBob).enrolled =
      lookupDev "bob" dataAliceBob.enrolled ∧
    (update_enrollment ctxUnknown dataAliceBob).enrolled = dataAliceBob.enrolled := by
  have hk := (c10_frame ctxAlice dataAliceBob).2 (by decide) (by decide)
  have hu := (c10_frame ctxUnknown dataAliceBob).1 (Or.inr rfl)
  exact ⟨hk.1, hk.2 "bob" (by decide), hu.1⟩
